import Mathlib

/-!
Shallow embedding of the real-time messaging gateway (L4 backend):
credential validation with a single-use nonce set, the connection
registry, broadcast fanout, the Redis-backed cache layer with its
in-process fallback, the notification and unread-count engine, and the
message handlers.  Each definition mirrors one JavaScript function of
the repository; theorems settle the design-document claims about them.
-/

/-! ### Credential validator (src/lib/websocketAuth.js) -/

/-- Payload of a JWT that jwt.verify accepted: walletAddress, issued-at,
expiry and the single-use nonce, as logged and used by validateJWTToken. -/
structure Decoded where
  walletAddress : String
  iat : Nat
  exp : Nat
  nonce : String
deriving DecidableEq, Repr

/-- Outcome of jwt.verify on a concrete token string with the fixed server
secret: either it throws (malformed input, bad signature, or expired,
since expiry checking happens inside jwt.verify) carrying the error
message, or it returns the decoded payload.  The cryptographic check
itself is outside the embedding; a token value records its fixed
verification outcome. -/
inductive Token where
  | invalid (err : String)
  | valid (d : Decoded)
deriving DecidableEq, Repr

/-- State of the singleton WebSocketAuth instance that matters to
validation: the usedTokens map from nonce to the Date.now() timestamp at
which it was consumed.  The map is shared by every connection because the
module exports one instance. -/
structure AuthState where
  usedTokens : List (String × Nat)
deriving DecidableEq, Repr

/-- JS Map.has on the usedTokens map. -/
def mapHas (m : List (String × Nat)) (k : String) : Bool :=
  m.any (fun p => p.1 == k)

/-- JS Map.set on the usedTokens map: replace the value when the key is
present, otherwise append the new entry. -/
def mapSet (m : List (String × Nat)) (k : String) (v : Nat) : List (String × Nat) :=
  if mapHas m k then m.map (fun p => if p.1 == k then (k, v) else p)
  else m ++ [(k, v)]

/-- The cleanup loop of validateJWTToken: delete every entry whose
timestamp is older than five minutes (timestamp < now - 5*60*1000).
Written with the subtraction on the left so that Nat truncation agrees
with the JS integer comparison. -/
def pruneUsed (m : List (String × Nat)) (now : Nat) : List (String × Nat) :=
  m.filter (fun p => !(p.2 + 300000 < now))

/-- Result object of validateJWTToken. -/
structure JwtResult where
  isValid : Bool
  walletAddress : Option String := none
  iat : Option Nat := none
  exp : Option Nat := none
  error : Option String := none
deriving DecidableEq, Repr

/-- validateJWTToken (src/lib/websocketAuth.js lines 22-92).  On a token
that jwt.verify rejects it returns isValid false with the thrown message
and leaves the state alone.  Otherwise it rejects an already-seen nonce,
and on a fresh nonce it records the nonce with the current time, prunes
entries older than five minutes, and reports success. -/
def validateJWTToken (s : AuthState) (tok : Token) (now : Nat) :
    JwtResult × AuthState :=
  match tok with
  | .invalid e => ({ isValid := false, error := some e }, s)
  | .valid d =>
    if mapHas s.usedTokens d.nonce then
      ({ isValid := false, error := some "Token already used" }, s)
    else
      let used := pruneUsed (mapSet s.usedTokens d.nonce now) now
      ({ isValid := true, walletAddress := some d.walletAddress,
         iat := some d.iat, exp := some d.exp }, { usedTokens := used })

/-- Authentication payload fields checked by validateAuthPayload.  A
missing or JS-falsy field is modelled as none. -/
structure AuthPayload where
  walletAddress : Option String
  jwtToken : Option Token
deriving DecidableEq, Repr

/-- Result object of validateAuthPayload. -/
structure AuthResult where
  isValid : Bool
  walletAddress : Option String := none
  error : Option String := none
deriving DecidableEq, Repr

/-- validateAuthPayload (src/lib/websocketAuth.js lines 97-126): checks
the required fields, runs validateJWTToken, then compares the JWT wallet
address against the asserted one.  The nonce side effect of
validateJWTToken is threaded through. -/
def validateAuthPayload (s : AuthState) (p : Option AuthPayload) (now : Nat) :
    AuthResult × AuthState :=
  match p with
  | none =>
    ({ isValid := false, error := some "Missing required authentication fields" }, s)
  | some payload =>
    match payload.walletAddress, payload.jwtToken with
    | none, _ =>
      ({ isValid := false, error := some "Missing required authentication fields" }, s)
    | some _, none =>
      ({ isValid := false, error := some "Missing required authentication fields" }, s)
    | some wa, some tok =>
      let r := validateJWTToken s tok now
      if !r.1.isValid then
        ({ isValid := false, error := some "Invalid JWT token" }, r.2)
      else if r.1.walletAddress != some wa then
        ({ isValid := false, error := some "Wallet address mismatch" }, r.2)
      else
        ({ isValid := true, walletAddress := some wa }, r.2)

/-- Run a sequence of validateJWTToken calls (token, Date.now) against the
shared state, keeping only the evolving usedTokens state. -/
def runAuthCalls (s : AuthState) (calls : List (Token × Nat)) : AuthState :=
  calls.foldl (fun st c => (validateJWTToken st c.1 c.2).2) s

/-! ### Connection registry (src/unnamed/part_006, setupUserConnection) -/

/-- A live transport handle: an identifier, the ws readyState field
(1 means OPEN), and whether a send call on it throws (a dead peer), used
by the fanout model. -/
structure WS where
  wsId : Nat
  readyState : Nat
  sendFails : Bool
deriving DecidableEq, Repr

/-- A close call issued on a transport: which handle, close code, reason. -/
structure CloseEvt where
  wsId : Nat
  code : Nat
  reason : String
deriving DecidableEq, Repr

/-- JS Map.get on the connections map (identity to transport). -/
def connGet (m : List (Nat × WS)) (k : Nat) : Option WS :=
  (m.find? (fun p => p.1 == k)).map Prod.snd

/-- JS Map.set on the connections map. -/
def connSet (m : List (Nat × WS)) (k : Nat) (v : WS) : List (Nat × WS) :=
  if m.any (fun p => p.1 == k) then m.map (fun p => if p.1 == k then (k, v) else p)
  else m ++ [(k, v)]

/-- JS Map.delete on the connections map. -/
def connDelete (m : List (Nat × WS)) (k : Nat) : List (Nat × WS) :=
  m.filter (fun p => p.1 != k)

/-- Observable outcome of setupUserConnection: the new connections map,
the close calls issued on replaced transports, the best-effort presence
writes, and the events sent on the fresh transport. -/
structure SetupResult where
  connections : List (Nat × WS)
  closeEvents : List CloseEvt
  presenceUpdates : List (Nat × String)
  sentEvents : List (Nat × String)
deriving Repr

/-- setupUserConnection (src/unnamed/part_006 lines 1098-1135, duplicated
at lines 2966-3004): when the identity already has a registered transport
it closes a still-open one with code 1000 and reason Replaced by new
connection, deletes the entry either way, installs the new transport,
marks the user online, and sends USER_STATUS_CHANGED on the new
transport. -/
def setupUserConnection (conns : List (Nat × WS)) (userId : Nat) (ws : WS) :
    SetupResult :=
  match connGet conns userId with
  | some existing =>
    let closes :=
      if existing.readyState == 1 then
        [⟨existing.wsId, 1000, "Replaced by new connection"⟩]
      else []
    let conns1 := connDelete conns userId
    { connections := connSet conns1 userId ws
      closeEvents := closes
      presenceUpdates := [(userId, "online")]
      sentEvents := [(ws.wsId, "USER_STATUS_CHANGED")] }
  | none =>
    { connections := connSet conns userId ws
      closeEvents := []
      presenceUpdates := [(userId, "online")]
      sentEvents := [(ws.wsId, "USER_STATUS_CHANGED")] }

/-! ### Source-of-record data model (prisma entities used by the gateway) -/

/-- User row: id and the lastSeen timestamp used as a watermark default. -/
structure User where
  userId : Nat
  lastSeen : Option Nat
deriving DecidableEq, Repr

/-- Channel row: the fields read by the channel queries and the cache
validation (id, name, type, isPrivate) plus updatedAt used for ordering. -/
structure Channel where
  chanId : Nat
  name : String
  type : String
  isPrivate : Bool
  updatedAt : Nat
deriving DecidableEq, Repr

/-- ChannelMember row. -/
structure ChannelMember where
  channelId : Nat
  userId : Nat
deriving DecidableEq, Repr

/-- Message row: the fields used by unread counting, mark-as-read and
send-message (id, channelId, authorId, sentAt, deletedAt, type,
repliedToMessageId). -/
structure Message where
  msgId : Nat
  channelId : Nat
  authorId : Nat
  sentAt : Nat
  deletedAt : Option Nat
  type : Nat
  repliedToMessageId : Option Nat
deriving DecidableEq, Repr

/-- ReadReceipt row. -/
structure ReadReceipt where
  messageId : Nat
  userId : Nat
  readAt : Nat
deriving DecidableEq, Repr

/-- The relational store as seen through prisma. -/
structure DB where
  users : List User
  channels : List Channel
  channelMembers : List ChannelMember
  messages : List Message
  readReceipts : List ReadReceipt
deriving DecidableEq, Repr

/-- prisma.channelMember.findUnique on the (channelId, userId) key. -/
def findMembership (db : DB) (channelId userId : Nat) : Option ChannelMember :=
  db.channelMembers.find? (fun m => m.channelId == channelId && m.userId == userId)

/-! ### Notification / unread engine (src/lib/notificationService.js) -/

/-- Read receipts of a user that sit on messages of the given channel, the
filter of the prisma query in getLastReadTime (where userId and relation
message.channelId). -/
def channelReceipts (db : DB) (userId channelId : Nat) : List ReadReceipt :=
  db.readReceipts.filter (fun r =>
    r.userId == userId &&
      ((db.messages.find? (fun m => m.msgId == r.messageId)).map
        (fun m => m.channelId)) == some channelId)

/-- The findFirst with orderBy readAt desc of getLastReadTime: the largest
readAt among the matching receipts, if any. -/
def latestReadAt (db : DB) (userId channelId : Nat) : Option Nat :=
  (channelReceipts db userId channelId).foldl
    (fun acc r =>
      match acc with
      | none => some r.readAt
      | some m => some (Nat.max m r.readAt)) none

/-- getLastReadTime (src/lib/notificationService.js lines 209-242): the
most recent read-receipt time of the user in the channel, else the lastSeen
time of the user, else epoch (new Date 0, modelled as 0). -/
def getLastReadTime (db : DB) (userId channelId : Nat) : Nat :=
  match latestReadAt db userId channelId with
  | some t => t
  | none =>
    match db.users.find? (fun u => u.userId == userId) with
    | some u =>
      match u.lastSeen with
      | some t => t
      | none => 0
    | none => 0

/-- calculateChannelUnreadCount (src/lib/notificationService.js lines
114-145): zero for a non-member, otherwise the number of messages of the
channel that are not soft-deleted, not authored by the user, and sent
strictly after the last-read time. -/
def calculateChannelUnreadCount (db : DB) (userId channelId : Nat) : Nat :=
  match findMembership db channelId userId with
  | none => 0
  | some _ =>
    let lastReadTime := getLastReadTime db userId channelId
    (db.messages.filter (fun m =>
      m.channelId == channelId && m.deletedAt == none &&
        m.authorId != userId && lastReadTime < m.sentAt)).length

/-- Modelled from the design document for the refinement comparison of the
unread formula: the watermark is the most recent acknowledgment timestamp
of the identity in the conversation, defaulting to the lastSeen time of
the identity, else epoch. -/
def specWatermark (db : DB) (userId channelId : Nat) : Nat :=
  match latestReadAt db userId channelId with
  | some t => t
  | none =>
    match db.users.find? (fun u => u.userId == userId) with
    | some u =>
      match u.lastSeen with
      | some t => t
      | none => 0
    | none => 0

/-- Modelled from the design document for the refinement comparison: the
unread count for an identity and conversation is the count of messages in
that conversation with timestamp strictly after the watermark, excluding
messages authored by that identity and soft-deleted messages. -/
def specUnreadCount (db : DB) (userId channelId : Nat) : Nat :=
  (db.messages.filter (fun m =>
    m.channelId == channelId && m.deletedAt == none &&
      m.authorId != userId && specWatermark db userId channelId < m.sentAt)).length

/-! ### Cache store (src/unnamed/part_004, class RedisCache)

The class keeps an external Upstash store when connected and a bounded
in-process fallback otherwise.  The external client is modelled as a plain
key-value map (its network behaviour is outside the embedding); the
in-process map carries an explicit expiry map and every operation takes
the current Date.now.  The message-keys tracking sets of the set method
only fire for keys containing the substring :messages:, which never occur
in the flows below, so they are not modelled. -/

/-- The startsWith test of clearAllChannelCaches, written on the character
lists of the strings so that it evaluates inside proofs. -/
def strStartsWith (s pre : String) : Bool :=
  pre.data.isPrefixOf s.data

/-- State of the RedisCache instance, generic in the cached value type
(the JS store is untyped; channel caches hold channel lists, count caches
hold strings). -/
structure RedisState (α : Type) where
  isConnected : Bool
  redisStore : List (String × α)
  memoryCache : List (String × α)
  memoryCacheExpiry : List (String × Nat)
deriving DecidableEq, Repr

/-- Association-list lookup keyed by strings, the JS Map.get. -/
def strGet {α : Type} (m : List (String × α)) (k : String) : Option α :=
  (m.find? (fun p => p.1 == k)).map Prod.snd

/-- Association-list update keyed by strings, the JS Map.set. -/
def strSet {α : Type} (m : List (String × α)) (k : String) (v : α) :
    List (String × α) :=
  if m.any (fun p => p.1 == k) then m.map (fun p => if p.1 == k then (k, v) else p)
  else m ++ [(k, v)]

/-- Association-list removal keyed by strings, the JS Map.delete. -/
def strDel {α : Type} (m : List (String × α)) (k : String) : List (String × α) :=
  m.filter (fun p => p.1 != k)

/-- getFromMemoryCache (part_004 lines 106-114): a present expiry strictly
in the past deletes the entry and returns null, otherwise the cached value
is returned.  The values cached by the gateway are JS-truthy, so the
final-or-null coercion is the plain lookup. -/
def getFromMemoryCache {α : Type} (st : RedisState α) (now : Nat) (key : String) :
    Option α × RedisState α :=
  match strGet st.memoryCacheExpiry key with
  | some e =>
    if e < now then
      (none, { st with memoryCache := strDel st.memoryCache key,
                       memoryCacheExpiry := strDel st.memoryCacheExpiry key })
    else (strGet st.memoryCache key, st)
  | none => (strGet st.memoryCache key, st)

/-- RedisCache.get (part_004 lines 85-104): external store when connected,
else the in-process fallback. -/
def RedisCache.get {α : Type} (st : RedisState α) (now : Nat) (key : String) :
    Option α × RedisState α :=
  if st.isConnected then (strGet st.redisStore key, st)
  else getFromMemoryCache st now key

/-- setInMemoryCache (part_004 lines 144-147). -/
def setInMemoryCache {α : Type} (st : RedisState α) (now : Nat) (key : String)
    (v : α) (ttlSeconds : Nat) : RedisState α :=
  { st with memoryCache := strSet st.memoryCache key v,
            memoryCacheExpiry := strSet st.memoryCacheExpiry key (now + ttlSeconds * 1000) }

/-- RedisCache.set (part_004 lines 116-142): external store with TTL when
connected, else the in-process fallback. -/
def RedisCache.set {α : Type} (st : RedisState α) (now : Nat) (key : String)
    (v : α) (ttlSeconds : Nat) : RedisState α :=
  if st.isConnected then { st with redisStore := strSet st.redisStore key v }
  else setInMemoryCache st now key v ttlSeconds

/-- RedisCache.del (part_004 lines 149-163).  The method takes a single
key parameter; a caller spreading several keys into the call only deletes
the first one, JavaScript dropping the extra arguments. -/
def RedisCache.del {α : Type} (st : RedisState α) (key : String) : RedisState α :=
  if st.isConnected then { st with redisStore := strDel st.redisStore key }
  else
    { st with memoryCache := strDel st.memoryCache key,
              memoryCacheExpiry := strDel st.memoryCacheExpiry key }

/-- RedisCache.clearAllChannelCaches (part_004 lines 308-335).  Without a
connection it deletes the in-process keys starting with channels: and
returns how many; when connected it deletes nothing (the Upstash client
has no KEYS command, the code logs that the cache will expire naturally
with TTL) and returns 0. -/
def RedisCache.clearAllChannelCaches {α : Type} (st : RedisState α) :
    Nat × RedisState α :=
  if st.isConnected then (0, st)
  else
    let doomed := st.memoryCache.filter (fun p => strStartsWith p.1 "channels:")
    (doomed.length,
      { st with
        memoryCache := st.memoryCache.filter (fun p => !strStartsWith p.1 "channels:"),
        memoryCacheExpiry :=
          st.memoryCacheExpiry.filter (fun p =>
            !(doomed.any (fun q => q.1 == p.1))) })

/-- The user-channels cache key of RedisCache.getUserChannelsKey. -/
def getUserChannelsKey (userId : Nat) : String :=
  "user:" ++ toString userId ++ ":channels"

/-! ### Count caches of the notification service -/

/-- Cache key of the total unread counter of a user. -/
def countTotalKey (userId : Nat) : String :=
  "notification:count:total:" ++ toString userId

/-- Cache key of the all-channels counter object of a user. -/
def countAllKey (userId : Nat) : String :=
  "notification:count:all:" ++ toString userId

/-- Cache key of the per-channel unread counter of a user. -/
def countChannelKey (userId channelId : Nat) : String :=
  "notification:count:channel:" ++ toString userId ++ ":" ++ toString channelId

/-- invalidateCountCaches (src/lib/notificationService.js lines 249-272).
With a channelId the patterns array holds the total, all and channel keys
and the code spreads it into this.redis.del; RedisCache.del declares a
single key parameter, so JavaScript binds the first pattern (the total
key) and drops the rest: only the total counter is deleted.  Without a
channelId the code first calls this.redis.keys, a method the RedisCache
class does not define, so a TypeError is thrown and swallowed by the catch
block before any deletion happens. -/
def invalidateCountCaches (st : RedisState String) (userId : Nat)
    (channelId : Option Nat) : RedisState String :=
  match channelId with
  | some _ => RedisCache.del st (countTotalKey userId)
  | none => st

/-- getChannelUnreadCount (src/lib/notificationService.js lines 29-50):
serve the cached string when present, else compute from the database and
cache it for 300 seconds. -/
def getChannelUnreadCount (db : DB) (st : RedisState String) (now : Nat)
    (userId channelId : Nat) : Nat × RedisState String :=
  match RedisCache.get st now (countChannelKey userId channelId) with
  | (some s, st1) => ((s.toNat?).getD 0, st1)
  | (none, st1) =>
    let c := calculateChannelUnreadCount db userId channelId
    (c, RedisCache.set st1 now (countChannelKey userId channelId) (toString c) 300)

/-- calculateTotalUnreadCount (src/lib/notificationService.js lines
152-173): the sum of the per-channel counts over the memberships of the
user, computed from the database. -/
def calculateTotalUnreadCount (db : DB) (userId : Nat) : Nat :=
  ((db.channelMembers.filter (fun m => m.userId == userId)).map
    (fun m => calculateChannelUnreadCount db userId m.channelId)).sum

/-- getTotalUnreadCount (src/lib/notificationService.js lines 57-78). -/
def getTotalUnreadCount (db : DB) (st : RedisState String) (now : Nat)
    (userId : Nat) : Nat × RedisState String :=
  match RedisCache.get st now (countTotalKey userId) with
  | (some s, st1) => ((s.toNat?).getD 0, st1)
  | (none, st1) =>
    let c := calculateTotalUnreadCount db userId
    (c, RedisCache.set st1 now (countTotalKey userId) (toString c) 300)

/-- An UNREAD_COUNT_UPDATE push: recipient, channel, channel count, total
count. -/
structure CountPush where
  userId : Nat
  channelId : Nat
  channelUnreadCount : Nat
  totalUnreadCount : Nat
deriving DecidableEq, Repr

/-- The push loop of handleNewMessage: for each member with a live
connection, read the updated counts (through the caches) and send an
UNREAD_COUNT_UPDATE. -/
def pushCountUpdates (db : DB) (conns : List (Nat × WS)) (now channelId : Nat)
    (members : List ChannelMember) (st : RedisState String) :
    RedisState String × List CountPush :=
  match members with
  | [] => (st, [])
  | m :: rest =>
    match connGet conns m.userId with
    | some ws =>
      if ws.readyState == 1 then
        let (chCount, st1) := getChannelUnreadCount db st now m.userId channelId
        let (totCount, st2) := getTotalUnreadCount db st1 now m.userId
        let (st3, pushes) := pushCountUpdates db conns now channelId rest st2
        (st3, ⟨m.userId, channelId, chCount, totCount⟩ :: pushes)
      else pushCountUpdates db conns now channelId rest st
    | none => pushCountUpdates db conns now channelId rest st

/-- handleNewMessage (src/lib/notificationService.js lines 279-328): list
the channel members other than the author, run invalidateCountCaches for
each, then push updated counts to the members with live connections. -/
def handleNewMessage (db : DB) (st : RedisState String) (now : Nat)
    (message : Message) (conns : List (Nat × WS)) :
    RedisState String × List CountPush :=
  let members := db.channelMembers.filter (fun m =>
    m.channelId == message.channelId && m.userId != message.authorId)
  let st1 := members.foldl
    (fun s m => invalidateCountCaches s m.userId (some message.channelId)) st
  pushCountUpdates db conns now message.channelId members st1

/-! ### Channel list cache validation and fetch (src/unnamed/part_001) -/

/-- The channel query condition shared by handleFetchChannels and
validateCacheVsDatabase: the user is a member, or the channel is a public
text-group. -/
def channelsQueryPred (db : DB) (userId : Nat) (c : Channel) : Bool :=
  (db.channelMembers.any (fun m => m.channelId == c.chanId && m.userId == userId)) ||
    (c.type == "text-group" && !c.isPrivate)

/-- Insertion step of the orderBy updatedAt desc model. -/
def insertByUpdated (c : Channel) : List Channel → List Channel
  | [] => [c]
  | x :: xs =>
    if x.updatedAt ≤ c.updatedAt then c :: x :: xs else x :: insertByUpdated c xs

/-- The orderBy updatedAt desc of the channel queries, as a stable sort. -/
def sortByUpdatedDesc (l : List Channel) : List Channel :=
  l.foldr insertByUpdated []

/-- The combined cached list validateCacheVsDatabase would serve: the user
list plus the public entries not already in it when both caches answer,
the user list alone when only it answers, else nothing. -/
def combineCached (cachedU cachedP : Option (List Channel)) : List Channel :=
  match cachedU, cachedP with
  | some u, some p => u ++ p.filter (fun c => !(u.any (fun x => x.chanId == c.chanId)))
  | some u, none => u
  | none, _ => []

/-- The comparison step of validateCacheVsDatabase on the already-read
cache values: true when no channel is missing from the cache and none is
extra in it, comparing id sets. -/
def cacheAgreesWithDb (db : DB) (userId : Nat)
    (cachedU cachedP : Option (List Channel)) : Bool :=
  let dbChannels := db.channels.filter (channelsQueryPred db userId)
  let cachedChannels := combineCached cachedU cachedP
  let missingFromCache := dbChannels.filter (fun c =>
    !(cachedChannels.any (fun x => x.chanId == c.chanId)))
  let extraInCache := cachedChannels.filter (fun c =>
    !(dbChannels.any (fun x => x.chanId == c.chanId)))
  missingFromCache.length == 0 && extraInCache.length == 0

/-- validateCacheVsDatabase (src/unnamed/part_001 lines 1111-1176): query
the channels of the user from the database, read both channel caches,
diff the id sets, and on any mismatch clear the channel caches through
RedisCache.clearAllChannelCaches and report false. -/
def validateCacheVsDatabase (db : DB) (st : RedisState (List Channel)) (now userId : Nat) :
    Bool × RedisState (List Channel) :=
  let r1 := RedisCache.get st now (getUserChannelsKey userId)
  let r2 := RedisCache.get r1.2 now "channels:public"
  if cacheAgreesWithDb db userId r1.1 r2.1 then (true, r2.2)
  else (false, (RedisCache.clearAllChannelCaches r2.2).2)

/-- Outcome of handleFetchChannels: the CHANNELS_LOADED list sent to the
requesting transport, the cache state, and the database (the handler may
insert a General membership). -/
structure FetchResult where
  sent : List Channel
  cache : RedisState (List Channel)
  db : DB

/-- The caching tail of handleFetchChannels: split the query result into
the user list and the public list, cache both for 120 seconds, and send
the full list. -/
def cacheAndSend (db : DB) (st : RedisState (List Channel)) (now userId : Nat)
    (channels : List Channel) : FetchResult :=
  let userChannels := channels.filter (fun c =>
    db.channelMembers.any (fun m => m.channelId == c.chanId && m.userId == userId))
  let publicChannels := channels.filter (fun c =>
    c.type == "text-group" && !c.isPrivate)
  let st1 := RedisCache.set st now (getUserChannelsKey userId) userChannels 120
  let st2 := RedisCache.set st1 now "channels:public" publicChannels 120
  { sent := channels, cache := st2, db := db }

/-- handleFetchChannels (src/unnamed/part_001 lines 301-488): validate the
cache against the database, serve the combined cached lists when both
caches still answer, otherwise rebuild from the database, joining the user
to the General channel first when it exists and the query missed it. -/
def handleFetchChannels (db : DB) (st : RedisState (List Channel)) (now userId : Nat) :
    FetchResult :=
  let st0 := (validateCacheVsDatabase db st now userId).2
  let r1 := RedisCache.get st0 now (getUserChannelsKey userId)
  let r2 := RedisCache.get r1.2 now "channels:public"
  match r1.1, r2.1 with
  | some u, some p =>
    { sent := u ++ p.filter (fun c => !(u.any (fun x => x.chanId == c.chanId)))
      cache := r2.2, db := db }
  | _, _ =>
    let channels := sortByUpdatedDesc (db.channels.filter (channelsQueryPred db userId))
    match channels.find? (fun c => c.type == "text-group" && c.name == "General") with
    | some _ => cacheAndSend db r2.2 now userId channels
    | none =>
      match db.channels.find? (fun c => c.type == "text-group" && c.name == "General") with
      | some g =>
        let db1 := { db with channelMembers := db.channelMembers ++ [⟨g.chanId, userId⟩] }
        let updated := sortByUpdatedDesc (db1.channels.filter (channelsQueryPred db1 userId))
        cacheAndSend db1 r2.2 now userId updated
      | none => cacheAndSend db r2.2 now userId channels

/-- The full database rebuild handleFetchChannels performs on a cache
miss, before any General auto-join. -/
def fetchChannelsFromDB (db : DB) (userId : Nat) : List Channel :=
  sortByUpdatedDesc (db.channels.filter (channelsQueryPred db userId))




/-! ### Theorems about the credential validator -/

theorem mapHas_of_mem {m : List (String × Nat)} {n : String} {t : Nat}
    (h : (n, t) ∈ m) : mapHas m n = true := by
  unfold mapHas
  rw [List.any_eq_true]
  exact ⟨(n, t), h, by simp⟩

theorem mem_pruneUsed {m : List (String × Nat)} {n : String} {t now : Nat}
    (h : (n, t) ∈ m) (ht : now ≤ t + 300000) :
    (n, t) ∈ pruneUsed m now := by
  unfold pruneUsed
  rw [List.mem_filter]
  refine ⟨h, ?_⟩
  simp only [Bool.not_eq_eq_eq_not, Bool.not_true, decide_eq_false_iff_not]
  omega

theorem validate_preserves (s : AuthState) (tok : Token) (t : Nat) {n : String}
    {t0 : Nat} (h : (n, t0) ∈ s.usedTokens) (ht : t ≤ t0 + 300000) :
    (n, t0) ∈ ((validateJWTToken s tok t).2).usedTokens := by
  cases tok with
  | invalid e => simpa [validateJWTToken] using h
  | valid d =>
    by_cases hh : mapHas s.usedTokens d.nonce = true
    · simpa [validateJWTToken, hh] using h
    · simp only [validateJWTToken, hh, Bool.false_eq_true, if_false]
      apply mem_pruneUsed _ ht
      unfold mapSet
      rw [if_neg hh]
      exact List.mem_append_left _ h

theorem runAuthCalls_preserves (calls : List (Token × Nat)) (s : AuthState)
    {n : String} {t0 : Nat} (h : (n, t0) ∈ s.usedTokens)
    (hc : ∀ c ∈ calls, c.2 ≤ t0 + 300000) :
    (n, t0) ∈ (runAuthCalls s calls).usedTokens := by
  induction calls generalizing s with
  | nil => simpa [runAuthCalls] using h
  | cons c rest ih =>
    have hstep := validate_preserves s c.1 c.2 h (hc c (by simp))
    have := ih _ hstep (fun x hx => hc x (List.mem_cons_of_mem _ hx))
    simpa [runAuthCalls] using this

theorem validate_success_mem (s : AuthState) (d : Decoded) (t0 : Nat)
    (h : (validateJWTToken s (.valid d) t0).1.isValid = true) :
    (d.nonce, t0) ∈ ((validateJWTToken s (.valid d) t0).2).usedTokens := by
  by_cases hh : mapHas s.usedTokens d.nonce = true
  · simp [validateJWTToken, hh] at h
  · simp only [validateJWTToken, hh, Bool.false_eq_true, if_false]
    apply mem_pruneUsed _ (Nat.le_add_right _ _)
    unfold mapSet
    rw [if_neg hh]
    exact List.mem_append_right _ (by simp)

/-- C1: a credential nonce that validated successfully once is rejected by
every later validation attempt presenting the same nonce (the usedTokens
map is shared by all connections), as long as every intervening
validation ran within the five-minute horizon of the consumption time, so
the consumed record was not pruned for age; the rejecting call also
leaves the state unchanged. -/
theorem nonce_single_use_until_pruned
    (s : AuthState) (d d2 : Decoded) (t0 t2 : Nat) (calls : List (Token × Nat))
    (hsucc : (validateJWTToken s (.valid d) t0).1.isValid = true)
    (hcalls : ∀ c ∈ calls, c.2 ≤ t0 + 300000)
    (hn : d2.nonce = d.nonce) :
    validateJWTToken (runAuthCalls (validateJWTToken s (.valid d) t0).2 calls)
        (.valid d2) t2 =
      ({ isValid := false, error := some "Token already used" },
        runAuthCalls (validateJWTToken s (.valid d) t0).2 calls) := by
  have h1 := validate_success_mem s d t0 hsucc
  have h2 := runAuthCalls_preserves calls _ h1 hcalls
  have h3 : mapHas (runAuthCalls (validateJWTToken s (.valid d) t0).2
      calls).usedTokens d2.nonce = true := by
    rw [hn]
    exact mapHas_of_mem h2
  set S := runAuthCalls (validateJWTToken s (.valid d) t0).2 calls with hS
  simp [validateJWTToken, h3]

/-- Witness for C1: a concrete successful validation at time 1000 followed
by another validation of a different nonce at time 2000; presenting the
first nonce again at time 250000 is rejected. -/
theorem nonce_single_use_until_pruned_witness :
    validateJWTToken
        (runAuthCalls (validateJWTToken ⟨[]⟩ (.valid ⟨"w", 1, 600, "n1"⟩) 1000).2
          [(.valid ⟨"w2", 1, 600, "n2"⟩, 2000)])
        (.valid ⟨"w", 1, 600, "n1"⟩) 250000 =
      ({ isValid := false, error := some "Token already used" },
        runAuthCalls (validateJWTToken ⟨[]⟩ (.valid ⟨"w", 1, 600, "n1"⟩) 1000).2
          [(.valid ⟨"w2", 1, 600, "n2"⟩, 2000)]) :=
  nonce_single_use_until_pruned ⟨[]⟩ ⟨"w", 1, 600, "n1"⟩ ⟨"w", 1, 600, "n1"⟩
    1000 250000 [(.valid ⟨"w2", 1, 600, "n2"⟩, 2000)]
    (by decide) (by decide) rfl

/-- C2 counterexample: an authentication attempt whose JWT verifies but
whose asserted wallet address differs from the one in the token fails
with Wallet address mismatch, yet the nonce has been recorded as
consumed: the failed attempt did not leave the consumed-nonce set
unchanged. -/
theorem wallet_mismatch_consumes_nonce :
    (validateAuthPayload ⟨[]⟩
        (some ⟨some "w2", some (.valid ⟨"w1", 0, 9999, "n1"⟩)⟩) 1000).1 =
      { isValid := false, error := some "Wallet address mismatch" } ∧
    (validateAuthPayload ⟨[]⟩
        (some ⟨some "w2", some (.valid ⟨"w1", 0, 9999, "n1"⟩)⟩) 1000).2 =
      ⟨[("n1", 1000)]⟩ := by
  constructor <;> rfl

/-- C2 amended: a nonce is recorded as consumed exactly when jwt.verify
succeeds on a not-yet-seen nonce.  Attempts that fail before that point
(missing payload or fields, malformed token, bad signature, expiry, or a
replayed nonce) leave the consumed-nonce set unchanged; a wallet-address
mismatch is detected only after the nonce has been recorded and therefore
does consume it. -/
theorem failed_verification_preserves_nonces
    (s : AuthState) (p : Option AuthPayload) (now : Nat)
    (h : ∀ pl d, p = some pl → pl.jwtToken = some (.valid d) →
      mapHas s.usedTokens d.nonce = true) :
    (validateAuthPayload s p now).2 = s := by
  match p with
  | none => rfl
  | some pl =>
    match hw : pl.walletAddress, hj : pl.jwtToken with
    | none, _ => simp [validateAuthPayload, hw]
    | some wa, none => simp [validateAuthPayload, hw, hj]
    | some wa, some (.invalid e) => simp [validateAuthPayload, validateJWTToken, hw, hj]
    | some wa, some (.valid d) =>
      have hh := h pl d rfl hj
      simp [validateAuthPayload, validateJWTToken, hw, hj, hh]

/-- Witness for C2 amended: a replayed nonce and an expired token both
leave a concrete consumed set unchanged. -/
theorem failed_verification_preserves_nonces_witness :
    (validateAuthPayload ⟨[("n1", 500)]⟩
        (some ⟨some "w1", some (.valid ⟨"w1", 0, 9999, "n1"⟩)⟩) 1000).2 =
      ⟨[("n1", 500)]⟩ :=
  failed_verification_preserves_nonces ⟨[("n1", 500)]⟩
    (some ⟨some "w1", some (.valid ⟨"w1", 0, 9999, "n1"⟩)⟩) 1000
    (by intro pl d hp hd; cases hp; cases hd; decide)

/-! ### Theorems about the connection registry -/

theorem find?_key_append_absent (m : List (Nat × WS)) (k : Nat) (v : WS)
    (h : m.any (fun p => p.1 == k) = false) :
    (m ++ [(k, v)]).find? (fun p => p.1 == k) = some (k, v) := by
  induction m with
  | nil => simp
  | cons x xs ih =>
    simp only [List.any_cons, Bool.or_eq_false_iff] at h
    simp only [List.cons_append, List.find?_cons, h.1]
    exact ih h.2

theorem connGet_append_absent (m : List (Nat × WS)) (k : Nat) (v : WS)
    (h : m.any (fun p => p.1 == k) = false) :
    connGet (m ++ [(k, v)]) k = some v := by
  unfold connGet
  rw [find?_key_append_absent m k v h]
  rfl

theorem any_key_connDelete (m : List (Nat × WS)) (k : Nat) :
    (connDelete m k).any (fun p => p.1 == k) = false := by
  unfold connDelete
  rw [List.any_eq_false]
  intro p hp
  rw [List.mem_filter] at hp
  simpa using hp.2

theorem nodup_keys_append_absent (m : List (Nat × WS)) (k : Nat) (v : WS)
    (h : (m.map Prod.fst).Nodup) (habs : m.any (fun p => p.1 == k) = false) :
    ((m ++ [(k, v)]).map Prod.fst).Nodup := by
  rw [List.map_append]
  refine List.Nodup.append h (List.nodup_singleton k) ?_
  intro a ha hb
  rw [List.any_eq_false] at habs
  rw [List.mem_map] at ha
  obtain ⟨p, hp, hpa⟩ := ha
  have := habs p hp
  simp only [List.map_cons, List.map_nil, List.mem_singleton] at hb
  apply this
  simp [hpa, hb]

theorem connDelete_keys_nodup (m : List (Nat × WS)) (k : Nat)
    (h : (m.map Prod.fst).Nodup) : ((connDelete m k).map Prod.fst).Nodup :=
  List.Nodup.sublist (List.Sublist.map Prod.fst (List.filter_sublist m)) h

theorem any_key_eq_false_of_connGet_none (m : List (Nat × WS)) (k : Nat)
    (h : connGet m k = none) : m.any (fun p => p.1 == k) = false := by
  unfold connGet at h
  rw [List.any_eq_false]
  intro p hp
  cases hf : List.find? (fun p => p.1 == k) m with
  | none =>
    rw [List.find?_eq_none] at hf
    exact hf p hp
  | some q =>
    rw [hf] at h
    simp at h

/-- C3: registering an authenticated connection keeps the registry keyed
uniquely by identity (at most one connection per identity), makes the
identity resolve to the new transport, and, when the identity already had
a registered transport that was still open, closes exactly that transport
with code 1000 and reason Replaced by new connection. -/
theorem registry_at_most_one_connection
    (conns : List (Nat × WS)) (userId : Nat) (ws : WS)
    (hnd : (conns.map Prod.fst).Nodup) :
    (((setupUserConnection conns userId ws).connections.map Prod.fst).Nodup) ∧
    (connGet (setupUserConnection conns userId ws).connections userId = some ws) ∧
    (∀ ex, connGet conns userId = some ex → ex.readyState = 1 →
      (setupUserConnection conns userId ws).closeEvents =
        [⟨ex.wsId, 1000, "Replaced by new connection"⟩]) := by
  cases hex : connGet conns userId with
  | some existing =>
    have habs := any_key_connDelete conns userId
    have hset : connSet (connDelete conns userId) userId ws =
        connDelete conns userId ++ [(userId, ws)] := by
      unfold connSet
      rw [if_neg]
      simp [habs]
    unfold setupUserConnection
    rw [hex]
    refine ⟨?_, ?_, ?_⟩
    · simp only [hset]
      exact nodup_keys_append_absent _ _ _ (connDelete_keys_nodup conns userId hnd) habs
    · simp only [hset]
      exact connGet_append_absent _ _ _ habs
    · intro ex hex2 hrs
      cases hex2
      simp [hrs]
  | none =>
    have habs := any_key_eq_false_of_connGet_none conns userId hex
    have hset : connSet conns userId ws = conns ++ [(userId, ws)] := by
      unfold connSet
      rw [if_neg]
      simp [habs]
    unfold setupUserConnection
    rw [hex]
    refine ⟨?_, ?_, ?_⟩
    · simp only [hset]
      exact nodup_keys_append_absent _ _ _ hnd habs
    · simp only [hset]
      exact connGet_append_absent _ _ _ habs
    · intro ex hex2 hrs
      simp at hex2

/-- Witness for C3: a registry holding an open connection for identity 7
and one for identity 8; a second authentication as identity 7 closes the
old transport with the replacement reason and installs the new one. -/
theorem registry_at_most_one_connection_witness :
    ((((setupUserConnection [(7, ⟨100, 1, false⟩), (8, ⟨101, 1, false⟩)] 7
        ⟨102, 1, false⟩).connections.map Prod.fst).Nodup) ∧
    (connGet (setupUserConnection [(7, ⟨100, 1, false⟩), (8, ⟨101, 1, false⟩)] 7
        ⟨102, 1, false⟩).connections 7 = some ⟨102, 1, false⟩) ∧
    (∀ ex, connGet [(7, ⟨100, 1, false⟩), (8, ⟨101, 1, false⟩)] 7 = some ex →
      ex.readyState = 1 →
      (setupUserConnection [(7, ⟨100, 1, false⟩), (8, ⟨101, 1, false⟩)] 7
        ⟨102, 1, false⟩).closeEvents =
        [⟨ex.wsId, 1000, "Replaced by new connection"⟩])) :=
  registry_at_most_one_connection [(7, ⟨100, 1, false⟩), (8, ⟨101, 1, false⟩)] 7
    ⟨102, 1, false⟩ (by decide)

/-! ### Broadcast fanout (src/unnamed/part_001 lines 107-158 and
src/unnamed/part_006 lines 333-381, identical send loops) -/

/-- The delivery report the design document expects a broadcast call to
return: attempted, delivered and membership counts. -/
structure DeliveryReport where
  attempted : Nat
  delivered : Nat
  membership : Nat
deriving DecidableEq, Repr

/-- Observable outcome of broadcastToChannel: the recipients actually
written to, the sentCount and totalMembers figures of the completion log
line, and the value the JS call yields to its caller. -/
structure BroadcastResult where
  delivered : List Nat
  sentCount : Nat
  totalMembers : Nat
  returnValue : Option DeliveryReport
deriving DecidableEq, Repr

/-- The members.forEach send loop of broadcastToChannel: skip the excluded
identity, skip members without a live open connection, write the shared
encoded message to the rest; a send that throws is caught, logged and the
loop continues. -/
def sendLoop (conns : List (Nat × WS)) (excludeUserId : Option Nat) :
    List ChannelMember → List Nat
  | [] => []
  | m :: rest =>
    if some m.userId != excludeUserId then
      match connGet conns m.userId with
      | some ws =>
        if ws.readyState == 1 then
          if ws.sendFails then sendLoop conns excludeUserId rest
          else m.userId :: sendLoop conns excludeUserId rest
        else sendLoop conns excludeUserId rest
      | none => sendLoop conns excludeUserId rest
    else sendLoop conns excludeUserId rest

/-- broadcastToChannel: encode the event once, resolve the membership of
the channel from the database, run the send loop, and log sentTo and
totalMembers.  The function body has no return statement, so the call
yields undefined to its caller: returnValue is none. -/
def broadcastToChannel (db : DB) (conns : List (Nat × WS)) (channelId : Nat)
    (event : String) (excludeUserId : Option Nat) : BroadcastResult :=
  let _ := event
  let members := db.channelMembers.filter (fun m => m.channelId == channelId)
  let delivered := sendLoop conns excludeUserId members
  { delivered := delivered, sentCount := delivered.length,
    totalMembers := members.length, returnValue := none }

/-! ### Message handlers (src/unnamed/part_001) -/

/-- An attachment of a SEND_MESSAGE payload: its declared type and an
optional filename. -/
structure Attachment where
  type : String
  filename : Option String
deriving DecidableEq, Repr

/-- Case-insensitive extension test modelling the filename regexes of
determineMessageType. -/
def hasExt (fname : String) (exts : List String) : Bool :=
  exts.any (fun e => fname.toLower.endsWith e)

/-- determineMessageType (src/unnamed/part_001 lines 77-105): gif
attachments give 3, image attachments 2, video 5, audio 4, else text 1. -/
def determineMessageType (content : String) (attachments : List Attachment) : Nat :=
  let _ := content
  if attachments.any (fun a => a.type == "gif") then 3
  else if attachments.any (fun a => a.type == "image" ||
    (match a.filename with
     | some f => hasExt f [".jpg", ".jpeg", ".png", ".gif", ".webp", ".svg"]
     | none => false)) then 2
  else if attachments.any (fun a => a.type == "video" ||
    (match a.filename with
     | some f => hasExt f [".mp4", ".avi", ".mov", ".wmv", ".flv", ".webm"]
     | none => false)) then 5
  else if attachments.any (fun a => a.type == "audio" ||
    (match a.filename with
     | some f => hasExt f [".mp3", ".wav", ".ogg", ".m4a", ".aac"]
     | none => false)) then 4
  else 1

/-- SEND_MESSAGE payload fields used by handleSendMessage. -/
structure SendPayload where
  channelId : Nat
  content : String
  attachments : List Attachment
  repliedToMessageId : Option Nat
deriving DecidableEq, Repr

/-- Observable outcome of handleSendMessage: the database after the
handler ran, the broadcast outcome, the count-cache state and pushes of
the notification step, and the typed error event sent back to the sender,
of which there is none on this path. -/
structure SendMessageResult where
  db : DB
  broadcast : BroadcastResult
  cache : RedisState String
  pushes : List CountPush
  errorEvent : Option String
deriving Repr

/-- handleSendMessage (src/unnamed/part_001 lines 180-245): look up the
membership of the sender in the target channel and create it when absent
(auto-join, no authorization check), create the message, broadcast
MESSAGE_RECEIVED to the channel with no exclusion, and run the
notification engine. -/
def handleSendMessage (db : DB) (conns : List (Nat × WS))
    (st : RedisState String) (userId : Nat) (payload : SendPayload)
    (now newMsgId : Nat) : SendMessageResult :=
  let db1 : DB :=
    match findMembership db payload.channelId userId with
    | some _ => db
    | none =>
      { db with channelMembers :=
          db.channelMembers ++ [(⟨payload.channelId, userId⟩ : ChannelMember)] }
  let mtype := determineMessageType payload.content payload.attachments
  let message : Message :=
    ⟨newMsgId, payload.channelId, userId, now, none, mtype, payload.repliedToMessageId⟩
  let db2 := { db1 with messages := db1.messages ++ [message] }
  let b := broadcastToChannel db2 conns payload.channelId "MESSAGE_RECEIVED" none
  let n := handleNewMessage db2 st now message conns
  { db := db2, broadcast := b, cache := n.1, pushes := n.2, errorEvent := none }

/-- Observable outcome of handleMarkAsRead: the database afterwards,
whether a read receipt was written, the channel passed to the
notification step if reached, and the error the handler rethrows.  The
handler receives no transport handle, so it can send nothing back. -/
structure MarkReadResult where
  db : DB
  receiptWritten : Bool
  notifiedChannel : Option Nat
  thrown : Option String
deriving DecidableEq, Repr

/-- handleMarkAsRead (src/unnamed/part_001 lines 605-674): a missing
message or a sender who is not a member of its channel returns silently
with no write and no event.  Otherwise the read receipt is upserted with
the current time; the following call then evaluates the identifier
connections, which no scope of this module defines, so a ReferenceError
is thrown and rethrown by the catch block before the notification step
runs. -/
def handleMarkAsRead (db : DB) (userId messageId now : Nat) : MarkReadResult :=
  match db.messages.find? (fun m => m.msgId == messageId) with
  | none => ⟨db, false, none, none⟩
  | some message =>
    match findMembership db message.channelId userId with
    | none => ⟨db, false, none, none⟩
    | some _ =>
      let rr := db.readReceipts
      let rr1 :=
        if rr.any (fun r => r.messageId == messageId && r.userId == userId) then
          rr.map (fun r =>
            if r.messageId == messageId && r.userId == userId then
              { r with readAt := now }
            else r)
        else rr ++ [⟨messageId, userId, now⟩]
      ⟨{ db with readReceipts := rr1 }, true, none,
        some "ReferenceError: connections is not defined"⟩

/-! ### Lemmas about the string-keyed map operations -/

theorem strGet_cons_pos {α : Type} (x : String × α) (xs : List (String × α))
    (k : String) (hx : (x.1 == k) = true) : strGet (x :: xs) k = some x.2 := by
  unfold strGet
  simp only [List.find?_cons, hx]
  rfl

theorem strGet_cons_neg {α : Type} (x : String × α) (xs : List (String × α))
    (k : String) (hx : (x.1 == k) = false) : strGet (x :: xs) k = strGet xs k := by
  unfold strGet
  simp only [List.find?_cons, hx]

theorem strGet_map_replace {α : Type} (m : List (String × α)) (k : String) (v : α)
    (h : m.any (fun p => p.1 == k) = true) :
    strGet (m.map (fun p => if p.1 == k then (k, v) else p)) k = some v := by
  induction m with
  | nil => simp at h
  | cons x xs ih =>
    rw [List.map_cons]
    by_cases hx : (x.1 == k) = true
    · rw [if_pos hx, strGet_cons_pos _ _ _ (by simp)]
    · have hx2 : (x.1 == k) = false := by
        cases hb : (x.1 == k) with
        | false => rfl
        | true => exact absurd hb hx
      have hxs : xs.any (fun p => p.1 == k) = true := by
        rcases List.any_eq_true.mp h with ⟨p, hp, hpk⟩
        rcases List.mem_cons.mp hp with he | hm
        · rw [he] at hpk
          simp [hpk] at hx2
        · exact List.any_eq_true.mpr ⟨p, hm, hpk⟩
      rw [if_neg hx, strGet_cons_neg _ _ _ hx2]
      exact ih hxs

theorem strGet_append_single {α : Type} (m : List (String × α)) (k : String) (v : α)
    (h : m.any (fun p => p.1 == k) = false) :
    strGet (m ++ [(k, v)]) k = some v := by
  induction m with
  | nil =>
    rw [List.nil_append, strGet_cons_pos _ _ _ (by simp)]
  | cons x xs ih =>
    simp only [List.any_cons, Bool.or_eq_false_iff] at h
    rw [List.cons_append, strGet_cons_neg _ _ _ h.1]
    exact ih h.2

theorem strGet_strSet_self {α : Type} (m : List (String × α)) (k : String) (v : α) :
    strGet (strSet m k v) k = some v := by
  unfold strSet
  by_cases h : m.any (fun p => p.1 == k) = true
  · rw [if_pos h]
    exact strGet_map_replace m k v h
  · have hf : m.any (fun p => p.1 == k) = false := by
      cases hb : m.any (fun p => p.1 == k) with
      | false => rfl
      | true => exact absurd hb h
    rw [if_neg h]
    exact strGet_append_single m k v hf

theorem strGet_map_set_ne {α : Type} (m : List (String × α)) (k k2 : String) (v : α)
    (h : (k2 == k) = false) :
    strGet (m.map (fun p => if p.1 == k2 then (k2, v) else p)) k = strGet m k := by
  induction m with
  | nil => rfl
  | cons x xs ih =>
    rw [List.map_cons]
    by_cases hx : (x.1 == k2) = true
    · have hx1 : x.1 = k2 := eq_of_beq hx
      have hxk : (x.1 == k) = false := by rw [hx1]; exact h
      rw [if_pos hx, strGet_cons_neg _ _ _ (by simpa using h),
        strGet_cons_neg _ _ _ hxk]
      exact ih
    · rw [if_neg hx]
      by_cases hxk : (x.1 == k) = true
      · rw [strGet_cons_pos _ _ _ hxk, strGet_cons_pos _ _ _ hxk]
      · have hxk2 : (x.1 == k) = false := by
          cases hb : (x.1 == k) with
          | false => rfl
          | true => exact absurd hb hxk
        rw [strGet_cons_neg _ _ _ hxk2, strGet_cons_neg _ _ _ hxk2]
        exact ih

theorem strGet_append_ne {α : Type} (m : List (String × α)) (k k2 : String) (v : α)
    (h : (k2 == k) = false) :
    strGet (m ++ [(k2, v)]) k = strGet m k := by
  induction m with
  | nil =>
    rw [List.nil_append, strGet_cons_neg _ _ _ h]
  | cons x xs ih =>
    rw [List.cons_append]
    by_cases hx : (x.1 == k) = true
    · rw [strGet_cons_pos _ _ _ hx, strGet_cons_pos _ _ _ hx]
    · have hx2 : (x.1 == k) = false := by
        cases hb : (x.1 == k) with
        | false => rfl
        | true => exact absurd hb hx
      rw [strGet_cons_neg _ _ _ hx2, strGet_cons_neg _ _ _ hx2]
      exact ih

theorem strGet_strSet_ne {α : Type} (m : List (String × α)) (k k2 : String) (v : α)
    (h : (k2 == k) = false) :
    strGet (strSet m k2 v) k = strGet m k := by
  unfold strSet
  by_cases hy : m.any (fun p => p.1 == k2) = true
  · rw [if_pos hy]
    exact strGet_map_set_ne m k k2 v h
  · rw [if_neg hy]
    exact strGet_append_ne m k k2 v h

theorem strGet_filter_of_key {α : Type} (m : List (String × α))
    (q : String × α → Bool) (k : String)
    (h : ∀ p ∈ m, p.1 = k → q p = true) :
    strGet (m.filter q) k = strGet m k := by
  induction m with
  | nil => rfl
  | cons x xs ih =>
    have ih2 := ih (fun p hp hk => h p (List.mem_cons_of_mem _ hp) hk)
    by_cases hx : (x.1 == k) = true
    · have hq : q x = true := h x (List.mem_cons_self _ _) (eq_of_beq hx)
      rw [List.filter_cons_of_pos hq, strGet_cons_pos _ _ _ hx, strGet_cons_pos _ _ _ hx]
    · have hx2 : (x.1 == k) = false := by
        cases hb : (x.1 == k) with
        | false => rfl
        | true => exact absurd hb hx
      cases hq : q x with
      | true =>
        rw [List.filter_cons_of_pos hq, strGet_cons_neg _ _ _ hx2,
          strGet_cons_neg _ _ _ hx2]
        exact ih2
      | false =>
        rw [List.filter_cons_of_neg (by simp [hq]), ih2, strGet_cons_neg _ _ _ hx2]

theorem strGet_filter_none {α : Type} (m : List (String × α))
    (q : String × α → Bool) (k : String)
    (h : ∀ p ∈ m, p.1 = k → q p = false) :
    strGet (m.filter q) k = none := by
  induction m with
  | nil => rfl
  | cons x xs ih =>
    have ih2 := ih (fun p hp hk => h p (List.mem_cons_of_mem _ hp) hk)
    by_cases hx : (x.1 == k) = true
    · have hq : q x = false := h x (List.mem_cons_self _ _) (eq_of_beq hx)
      rw [List.filter_cons_of_neg (by simp [hq])]
      exact ih2
    · have hx2 : (x.1 == k) = false := by
        cases hb : (x.1 == k) with
        | false => rfl
        | true => exact absurd hb hx
      cases hq : q x with
      | true =>
        rw [List.filter_cons_of_pos hq, strGet_cons_neg _ _ _ hx2]
        exact ih2
      | false =>
        rw [List.filter_cons_of_neg (by simp [hq])]
        exact ih2

/-! ### Theorems about mark-as-read -/

/-- C10: a MARK_AS_READ whose messageId does not resolve to a message, or
whose sender is not a member of the channel of that message, returns
silently: the database is unchanged, no read receipt is written, the
notification step is not reached, nothing is thrown, and the handler has
no transport handle so no event can go back to the client. -/
theorem mark_as_read_silent_on_invalid
    (db : DB) (userId messageId now : Nat)
    (h : ∀ m, db.messages.find? (fun x => x.msgId == messageId) = some m →
      findMembership db m.channelId userId = none) :
    handleMarkAsRead db userId messageId now = ⟨db, false, none, none⟩ := by
  cases hf : db.messages.find? (fun x => x.msgId == messageId) with
  | none => simp [handleMarkAsRead, hf]
  | some m => simp [handleMarkAsRead, hf, h m hf]

/-- Witness for C10: message 10 exists in channel 1 but user 2 is not a
member; marking it as read changes nothing and answers nothing. -/
theorem mark_as_read_silent_on_invalid_witness :
    handleMarkAsRead ⟨[], [], [⟨1, 3⟩], [⟨10, 1, 3, 5, none, 1, none⟩], []⟩ 2 10 100 =
      ⟨⟨[], [], [⟨1, 3⟩], [⟨10, 1, 3, 5, none, 1, none⟩], []⟩, false, none, none⟩ :=
  mark_as_read_silent_on_invalid ⟨[], [], [⟨1, 3⟩], [⟨10, 1, 3, 5, none, 1, none⟩], []⟩
    2 10 100 (by decide)

/-! ### Theorems about the unread formula -/

/-- C8 counterexample: for an identity that is not a member of the
conversation the code returns 0 while the unread formula of the design
document counts 1; the claim quantifies over every identity and
conversation and omits the membership guard. -/
theorem unread_nonmember_differs :
    calculateChannelUnreadCount ⟨[⟨2, none⟩], [], [], [⟨10, 1, 3, 5, none, 1, none⟩], []⟩ 2 1 = 0 ∧
    specUnreadCount ⟨[⟨2, none⟩], [], [], [⟨10, 1, 3, 5, none, 1, none⟩], []⟩ 2 1 = 1 := by
  constructor <;> rfl

/-- C8 amended: for every identity that is a member of the conversation,
the unread count of the code equals the formula of the design document
(messages of the conversation, not soft-deleted, not authored by the
identity, sent strictly after the watermark, the watermark being the most
recent read-receipt time, else lastSeen, else epoch); for a non-member
the code returns 0. -/
theorem unread_count_matches_spec
    (db : DB) (userId channelId : Nat) (mem : ChannelMember)
    (h : findMembership db channelId userId = some mem) :
    calculateChannelUnreadCount db userId channelId =
      specUnreadCount db userId channelId := by
  unfold calculateChannelUnreadCount
  rw [h]
  rfl

/-- Witness for C8 amended: a member with one unseen foreign message gets
the same count from the code and from the formula. -/
theorem unread_count_matches_spec_witness :
    calculateChannelUnreadCount
        ⟨[⟨2, none⟩], [], [⟨1, 2⟩], [⟨10, 1, 3, 5, none, 1, none⟩], []⟩ 2 1 =
      specUnreadCount ⟨[⟨2, none⟩], [], [⟨1, 2⟩], [⟨10, 1, 3, 5, none, 1, none⟩], []⟩ 2 1 :=
  unread_count_matches_spec ⟨[⟨2, none⟩], [], [⟨1, 2⟩], [⟨10, 1, 3, 5, none, 1, none⟩], []⟩
    2 1 ⟨1, 2⟩ (by decide)

/-! ### Theorems about cache validation -/

/-- C9: when the two channel caches answer and their combined id set
already equals the id set of the source-of-record query, the validation
reports true and returns the exact same cache state: no entry is touched
and nothing is invalidated. -/
theorem cache_validation_idempotent
    (db : DB) (st : RedisState (List Channel)) (now userId : Nat)
    (cu cp : Option (List Channel))
    (h1 : RedisCache.get st now (getUserChannelsKey userId) = (cu, st))
    (h2 : RedisCache.get st now "channels:public" = (cp, st))
    (hag : cacheAgreesWithDb db userId cu cp = true) :
    validateCacheVsDatabase db st now userId = (true, st) := by
  unfold validateCacheVsDatabase
  rw [h1]
  simp only
  rw [h2]
  simp [hag]

/-- Witness for C9: a connected store whose cached lists match the single
channel of the database; validation answers true with the state intact. -/
theorem cache_validation_idempotent_witness :
    validateCacheVsDatabase
        ⟨[], [⟨1, "General", "text-group", false, 0⟩], [⟨1, 2⟩], [], []⟩
        ⟨true, [("user:2:channels", [⟨1, "General", "text-group", false, 0⟩]),
                ("channels:public", [⟨1, "General", "text-group", false, 0⟩])], [], []⟩
        100 2 =
      (true, ⟨true, [("user:2:channels", [⟨1, "General", "text-group", false, 0⟩]),
                ("channels:public", [⟨1, "General", "text-group", false, 0⟩])], [], []⟩) :=
  cache_validation_idempotent
    ⟨[], [⟨1, "General", "text-group", false, 0⟩], [⟨1, 2⟩], [], []⟩
    ⟨true, [("user:2:channels", [⟨1, "General", "text-group", false, 0⟩]),
            ("channels:public", [⟨1, "General", "text-group", false, 0⟩])], [], []⟩
    100 2
    (some [⟨1, "General", "text-group", false, 0⟩])
    (some [⟨1, "General", "text-group", false, 0⟩])
    (by decide) (by decide) (by decide)

/-! ### Theorems about broadcast fanout -/

theorem sendLoop_eq (conns : List (Nat × WS)) (exclude : Option Nat)
    (members : List ChannelMember) :
    sendLoop conns exclude members =
      (members.filter (fun m => (some m.userId != exclude) &&
        (match connGet conns m.userId with
         | some ws => ws.readyState == 1 && !ws.sendFails
         | none => false))).map (fun m => m.userId) := by
  induction members with
  | nil => rfl
  | cons m rest ih =>
    unfold sendLoop
    by_cases hex : (some m.userId != exclude) = true
    · cases hc : connGet conns m.userId with
      | some ws =>
        by_cases hrs : (ws.readyState == 1) = true
        · cases hsf : ws.sendFails with
          | true => simp [hex, hc, hrs, hsf, List.filter_cons, ih]
          | false => simp [hex, hc, hrs, hsf, List.filter_cons, ih]
        · simp [hex, hc, hrs, List.filter_cons, ih]
      | none => simp [hex, hc, List.filter_cons, ih]
    · simp [hex, List.filter_cons, ih]

/-- C6 counterexample: a concrete broadcast to a channel with three
members, one live and healthy, one live but with a dead transport whose
send throws, one offline.  The call yields undefined (returnValue none):
no delivery report with attempted, delivered and membership counts is
returned to the caller; the figures only reach the completion log line,
which also has no attempted count. -/
theorem broadcast_returns_no_report :
    broadcastToChannel ⟨[], [], [⟨1, 2⟩, ⟨1, 3⟩, ⟨1, 4⟩], [], []⟩
        [(2, ⟨20, 1, false⟩), (3, ⟨30, 1, true⟩)] 1 "MESSAGE_RECEIVED" none =
      { delivered := [2], sentCount := 1, totalMembers := 3, returnValue := none } := by
  decide

/-- C6 amended: a broadcast call returns no value to its caller; the
completion log carries the delivered count (sentTo) and the membership
size (totalMembers), the delivered set being exactly the non-excluded
members with a live open connection whose send did not throw, so partial
delivery only lowers the logged count and is never raised as an error,
and a throwing recipient does not stop later recipients from receiving. -/
theorem broadcast_logs_counts_returns_nothing (db : DB) (conns : List (Nat × WS))
    (channelId : Nat) (event : String) (exclude : Option Nat) :
    broadcastToChannel db conns channelId event exclude =
      { delivered := ((db.channelMembers.filter (fun m => m.channelId == channelId)).filter
          (fun m => (some m.userId != exclude) &&
            (match connGet conns m.userId with
             | some ws => ws.readyState == 1 && !ws.sendFails
             | none => false))).map (fun m => m.userId),
        sentCount := (((db.channelMembers.filter (fun m => m.channelId == channelId)).filter
          (fun m => (some m.userId != exclude) &&
            (match connGet conns m.userId with
             | some ws => ws.readyState == 1 && !ws.sendFails
             | none => false))).map (fun m => m.userId)).length,
        totalMembers := (db.channelMembers.filter (fun m => m.channelId == channelId)).length,
        returnValue := none } := by
  simp only [broadcastToChannel]
  rw [sendLoop_eq]

/-! ### Theorems about send-message authorization -/

/-- C7 counterexample: user 5 is not a member of channel 1, yet a
SEND_MESSAGE from user 5 produces no error event, inserts user 5 into the
membership of channel 1 and creates the message: membership and message
state both change and no typed authorization error exists on this path. -/
theorem send_message_nonmember_no_error :
    findMembership ⟨[], [], [⟨1, 7⟩], [], []⟩ 1 5 = none ∧
    (handleSendMessage ⟨[], [], [⟨1, 7⟩], [], []⟩ [] ⟨false, [], [], []⟩ 5
        ⟨1, "hi", [], none⟩ 50 99).errorEvent = none ∧
    (handleSendMessage ⟨[], [], [⟨1, 7⟩], [], []⟩ [] ⟨false, [], [], []⟩ 5
        ⟨1, "hi", [], none⟩ 50 99).db.channelMembers = [⟨1, 7⟩, ⟨1, 5⟩] ∧
    (handleSendMessage ⟨[], [], [⟨1, 7⟩], [], []⟩ [] ⟨false, [], [], []⟩ 5
        ⟨1, "hi", [], none⟩ 50 99).db.messages = [⟨99, 1, 5, 50, none, 1, none⟩] := by
  decide

/-- C7 amended: a SEND_MESSAGE from a sender who is not a member of the
target channel raises no authorization error; the handler auto-joins the
sender, appending the membership row, and then creates the message. -/
theorem send_message_auto_joins
    (db : DB) (conns : List (Nat × WS)) (st : RedisState String) (userId : Nat)
    (payload : SendPayload) (now newMsgId : Nat)
    (h : findMembership db payload.channelId userId = none) :
    (handleSendMessage db conns st userId payload now newMsgId).errorEvent = none ∧
    (handleSendMessage db conns st userId payload now newMsgId).db.channelMembers =
      db.channelMembers ++ [⟨payload.channelId, userId⟩] ∧
    (handleSendMessage db conns st userId payload now newMsgId).db.messages =
      db.messages ++ [⟨newMsgId, payload.channelId, userId, now, none,
        determineMessageType payload.content payload.attachments,
        payload.repliedToMessageId⟩] := by
  simp [handleSendMessage, h]

/-- Witness for C7 amended: the non-member sender of the counterexample
state, through the general theorem. -/
theorem send_message_auto_joins_witness :
    (handleSendMessage ⟨[], [], [⟨1, 7⟩], [], []⟩ [] ⟨false, [], [], []⟩ 5
        ⟨1, "hi", [], none⟩ 50 99).errorEvent = none ∧
    (handleSendMessage ⟨[], [], [⟨1, 7⟩], [], []⟩ [] ⟨false, [], [], []⟩ 5
        ⟨1, "hi", [], none⟩ 50 99).db.channelMembers = [⟨1, 7⟩] ++ [⟨1, 5⟩] ∧
    (handleSendMessage ⟨[], [], [⟨1, 7⟩], [], []⟩ [] ⟨false, [], [], []⟩ 5
        ⟨1, "hi", [], none⟩ 50 99).db.messages =
      [] ++ [⟨99, 1, 5, 50, none, determineMessageType "hi" [], none⟩] :=
  send_message_auto_joins ⟨[], [], [⟨1, 7⟩], [], []⟩ [] ⟨false, [], [], []⟩ 5
    ⟨1, "hi", [], none⟩ 50 99 (by decide)

/-! ### Theorems about count-cache invalidation -/

/-- C5: evaluation at the failing input.  A new message by user 7 in
channel 1, with member 2 holding cached total and per-channel counters.
The invalidation loop of handleNewMessage deletes only the total key:
invalidateCountCaches spreads three patterns into RedisCache.del, whose
single key parameter binds the first one, so the per-channel counter
entry survives in the cache with its stale value. -/
theorem invalidate_deletes_only_total :
    (handleNewMessage ⟨[], [], [⟨1, 2⟩, ⟨1, 7⟩], [], []⟩
        ⟨false, [],
          [("notification:count:total:2", "5"), ("notification:count:channel:2:1", "3")],
          [("notification:count:total:2", 999999), ("notification:count:channel:2:1", 999999)]⟩
        60 ⟨99, 1, 7, 50, none, 1, none⟩ []).1.memoryCache =
      [("notification:count:channel:2:1", "3")] ∧
    (handleNewMessage ⟨[], [], [⟨1, 2⟩, ⟨1, 7⟩], [], []⟩
        ⟨false, [],
          [("notification:count:total:2", "5"), ("notification:count:channel:2:1", "3")],
          [("notification:count:total:2", 999999), ("notification:count:channel:2:1", 999999)]⟩
        60 ⟨99, 1, 7, 50, none, 1, none⟩ []).2 = [] := by
  decide

/-! ### Theorems about cache invalidation on mismatch -/

theorem strGet_some_mem {α : Type} (m : List (String × α)) (k : String) (v : α)
    (h : strGet m k = some v) : ∃ e ∈ m, e.1 = k ∧ e.2 = v := by
  unfold strGet at h
  cases hf : m.find? (fun p => p.1 == k) with
  | none => rw [hf] at h; simp at h
  | some e =>
    rw [hf] at h
    have hpred := List.find?_some hf
    exact ⟨e, List.mem_of_find?_eq_some hf, eq_of_beq hpred, by simpa using h⟩

/-- C4 counterexample: with the external store connected, the cached list
of user 2 holds channel 1 while the source of record shows user 2 in no
channel.  The validation detects the mismatch, but
RedisCache.clearAllChannelCaches is a no-op when connected (the Upstash
client has no KEYS command), so the next fetch still serves the stale
cached list containing channel 1 and the cache state is unchanged, while
the corrected list rebuilt from the source of record would be empty. -/
theorem stale_list_served_when_connected :
    (handleFetchChannels ⟨[], [⟨1, "C", "dm", true, 0⟩], [], [], []⟩
        ⟨true, [("user:2:channels", [⟨1, "C", "dm", true, 0⟩]), ("channels:public", [])],
          [], []⟩ 100 2).sent = [⟨1, "C", "dm", true, 0⟩] ∧
    (handleFetchChannels ⟨[], [⟨1, "C", "dm", true, 0⟩], [], [], []⟩
        ⟨true, [("user:2:channels", [⟨1, "C", "dm", true, 0⟩]), ("channels:public", [])],
          [], []⟩ 100 2).cache =
      ⟨true, [("user:2:channels", [⟨1, "C", "dm", true, 0⟩]), ("channels:public", [])],
        [], []⟩ ∧
    fetchChannelsFromDB ⟨[], [⟨1, "C", "dm", true, 0⟩], [], [], []⟩ 2 = [] := by
  decide

theorem RedisCache_get_memory_hit {α : Type} (st : RedisState α) (now : Nat)
    (key : String) (v : α)
    (hconn : st.isConnected = false)
    (hmem : strGet st.memoryCache key = some v)
    (hexp : ∀ e, strGet st.memoryCacheExpiry key = some e → ¬ e < now) :
    RedisCache.get st now key = (some v, st) := by
  unfold RedisCache.get
  rw [if_neg (by simp [hconn])]
  unfold getFromMemoryCache
  cases hee : strGet st.memoryCacheExpiry key with
  | none => simp [hmem]
  | some e => simp [hmem, hexp e hee]

theorem RedisCache_set_memory {α : Type} (st : RedisState α) (now : Nat)
    (key : String) (v : α) (ttl : Nat) (hconn : st.isConnected = false) :
    RedisCache.set st now key v ttl = setInMemoryCache st now key v ttl := by
  unfold RedisCache.set
  rw [if_neg (by simp [hconn])]

theorem RedisCache_get_memory_miss {α : Type} (st : RedisState α) (now : Nat)
    (key : String)
    (hconn : st.isConnected = false)
    (hmem : strGet st.memoryCache key = none)
    (hexp : strGet st.memoryCacheExpiry key = none) :
    RedisCache.get st now key = (none, st) := by
  unfold RedisCache.get
  rw [if_neg (by simp [hconn])]
  unfold getFromMemoryCache
  simp [hexp, hmem]

/-- C4 amended: the mismatch is detected on every fetch, but the clearing
step only works in degraded mode.  When the cache runs on the in-process
fallback and both channel caches hold unexpired entries whose combined id
set disagrees with the source of record, the next fetch clears the
channels: prefixed keys, misses the cache, and sends the corrected
channel list rebuilt from the source of record, recaching the fresh user
list; when the external store is connected the clearing step is a no-op
and the stale cached list is served. -/
theorem fetch_rebuilds_on_mismatch_degraded
    (db : DB) (st : RedisState (List Channel)) (now userId : Nat)
    (u p : List Channel)
    (hconn : st.isConnected = false)
    (hu : strGet st.memoryCache (getUserChannelsKey userId) = some u)
    (hue : ∀ e, strGet st.memoryCacheExpiry (getUserChannelsKey userId) = some e →
      ¬ e < now)
    (hp : strGet st.memoryCache "channels:public" = some p)
    (hpe : ∀ e, strGet st.memoryCacheExpiry "channels:public" = some e → ¬ e < now)
    (hkey : strStartsWith (getUserChannelsKey userId) "channels:" = false)
    (hmis : cacheAgreesWithDb db userId (some u) (some p) = false)
    (hG : ((fetchChannelsFromDB db userId).find? (fun c =>
      c.type == "text-group" && c.name == "General")).isSome = true) :
    (handleFetchChannels db st now userId).sent = fetchChannelsFromDB db userId ∧
    (handleFetchChannels db st now userId).db = db ∧
    strGet (handleFetchChannels db st now userId).cache.memoryCache
        (getUserChannelsKey userId) =
      some ((fetchChannelsFromDB db userId).filter (fun c =>
        db.channelMembers.any (fun m => m.channelId == c.chanId && m.userId == userId))) := by
  have hne : ("channels:public" == getUserChannelsKey userId) = false := by
    cases hb : ("channels:public" == getUserChannelsKey userId) with
    | false => rfl
    | true =>
      have heq := eq_of_beq hb
      rw [← heq] at hkey
      exact absurd hkey (by decide)
  have hdoomed_user :
      ((st.memoryCache.filter (fun r => strStartsWith r.1 "channels:")).any
        (fun r => r.1 == getUserChannelsKey userId)) = false := by
    rw [List.any_eq_false]
    intro d hd
    rw [List.mem_filter] at hd
    intro hbq
    have hd1 : d.1 = getUserChannelsKey userId := eq_of_beq hbq
    rw [hd1] at hd
    rw [hkey] at hd
    exact Bool.noConfusion hd.2
  have hdoomed_pub :
      ((st.memoryCache.filter (fun r => strStartsWith r.1 "channels:")).any
        (fun r => r.1 == "channels:public")) = true := by
    obtain ⟨e, hem, hek, _⟩ := strGet_some_mem st.memoryCache "channels:public" p hp
    rw [List.any_eq_true]
    refine ⟨e, ?_, ?_⟩
    · rw [List.mem_filter]
      refine ⟨hem, ?_⟩
      rw [hek]
      decide
    · rw [hek]
      decide
  set C : RedisState (List Channel) :=
    { st with
      memoryCache := st.memoryCache.filter (fun q => !strStartsWith q.1 "channels:"),
      memoryCacheExpiry := st.memoryCacheExpiry.filter (fun q =>
        !((st.memoryCache.filter (fun r => strStartsWith r.1 "channels:")).any
          (fun r => r.1 == q.1))) } with hC
  have hclear : (RedisCache.clearAllChannelCaches st).2 = C := by
    unfold RedisCache.clearAllChannelCaches
    rw [if_neg (by simp [hconn])]
  have hCmem_user : strGet C.memoryCache (getUserChannelsKey userId) = some u := by
    rw [hC]
    show strGet (st.memoryCache.filter (fun q => !strStartsWith q.1 "channels:"))
      (getUserChannelsKey userId) = some u
    rw [strGet_filter_of_key _ _ _ (fun pr _ hk => by rw [hk, hkey]; rfl)]
    exact hu
  have hCexp_user :
      strGet C.memoryCacheExpiry (getUserChannelsKey userId) =
      strGet st.memoryCacheExpiry (getUserChannelsKey userId) := by
    rw [hC]
    show strGet (st.memoryCacheExpiry.filter (fun q =>
        !((st.memoryCache.filter (fun r => strStartsWith r.1 "channels:")).any
          (fun r => r.1 == q.1)))) (getUserChannelsKey userId) =
      strGet st.memoryCacheExpiry (getUserChannelsKey userId)
    exact strGet_filter_of_key _ _ _ (fun pr _ hk => by rw [hk, hdoomed_user]; rfl)
  have hCmem_pub : strGet C.memoryCache "channels:public" = none := by
    rw [hC]
    show strGet (st.memoryCache.filter (fun q => !strStartsWith q.1 "channels:"))
      "channels:public" = none
    apply strGet_filter_none
    intro pr _ hk
    rw [hk]
    decide
  have hCexp_pub : strGet C.memoryCacheExpiry "channels:public" = none := by
    rw [hC]
    show strGet (st.memoryCacheExpiry.filter (fun q =>
        !((st.memoryCache.filter (fun r => strStartsWith r.1 "channels:")).any
          (fun r => r.1 == q.1)))) "channels:public" = none
    apply strGet_filter_none
    intro pr _ hk
    rw [hk, hdoomed_pub]
    rfl
  have hCconn : C.isConnected = false := hconn
  have hget1 : RedisCache.get st now (getUserChannelsKey userId) = (some u, st) :=
    RedisCache_get_memory_hit st now (getUserChannelsKey userId) u hconn hu hue
  have hget2 : RedisCache.get st now "channels:public" = (some p, st) :=
    RedisCache_get_memory_hit st now "channels:public" p hconn hp hpe
  have hval : validateCacheVsDatabase db st now userId =
      (false, (RedisCache.clearAllChannelCaches st).2) := by
    simp only [validateCacheVsDatabase, hget1, hget2, hmis]
    rfl
  have hCu : RedisCache.get C now (getUserChannelsKey userId) = (some u, C) :=
    RedisCache_get_memory_hit C now (getUserChannelsKey userId) u hCconn hCmem_user
      (fun e he => hue e (by rw [← hCexp_user]; exact he))
  have hCp : RedisCache.get C now "channels:public" = (none, C) :=
    RedisCache_get_memory_miss C now "channels:public" hCconn hCmem_pub hCexp_pub
  have hmain : handleFetchChannels db st now userId =
      cacheAndSend db C now userId (fetchChannelsFromDB db userId) := by
    obtain ⟨g, hg⟩ := Option.isSome_iff_exists.mp hG
    simp only [fetchChannelsFromDB] at hg
    simp only [handleFetchChannels, hval, hclear, hCu, hCp, fetchChannelsFromDB, hg]
  rw [hmain]
  refine ⟨?_, ?_, ?_⟩
  · simp only [cacheAndSend]
  · simp only [cacheAndSend]
  · simp only [cacheAndSend]
    rw [RedisCache_set_memory C now (getUserChannelsKey userId) _ 120 hCconn]
    rw [RedisCache_set_memory (setInMemoryCache C now (getUserChannelsKey userId)
        ((fetchChannelsFromDB db userId).filter (fun c =>
          db.channelMembers.any (fun m => m.channelId == c.chanId && m.userId == userId)))
        120) now "channels:public" _ 120 hCconn]
    simp only [setInMemoryCache]
    rw [strGet_strSet_ne _ _ _ _ hne, strGet_strSet_self]

/-- Witness for C4 amended: a degraded-mode cache whose user list holds a
stale private channel 9 next to the General channel; the fetch detects
the mismatch and rebuilds from the source of record. -/
theorem fetch_rebuilds_on_mismatch_degraded_witness :
    (handleFetchChannels
        ⟨[⟨2, none⟩], [⟨1, "General", "text-group", false, 0⟩], [⟨1, 2⟩], [], []⟩
        ⟨false, [],
          [("user:2:channels",
            [⟨1, "General", "text-group", false, 0⟩, ⟨9, "X", "dm", true, 0⟩]),
           ("channels:public", [⟨1, "General", "text-group", false, 0⟩])],
          [("user:2:channels", 10000), ("channels:public", 10000)]⟩ 100 2).sent =
      fetchChannelsFromDB
        ⟨[⟨2, none⟩], [⟨1, "General", "text-group", false, 0⟩], [⟨1, 2⟩], [], []⟩ 2 ∧
    (handleFetchChannels
        ⟨[⟨2, none⟩], [⟨1, "General", "text-group", false, 0⟩], [⟨1, 2⟩], [], []⟩
        ⟨false, [],
          [("user:2:channels",
            [⟨1, "General", "text-group", false, 0⟩, ⟨9, "X", "dm", true, 0⟩]),
           ("channels:public", [⟨1, "General", "text-group", false, 0⟩])],
          [("user:2:channels", 10000), ("channels:public", 10000)]⟩ 100 2).db =
      ⟨[⟨2, none⟩], [⟨1, "General", "text-group", false, 0⟩], [⟨1, 2⟩], [], []⟩ ∧
    strGet (handleFetchChannels
        ⟨[⟨2, none⟩], [⟨1, "General", "text-group", false, 0⟩], [⟨1, 2⟩], [], []⟩
        ⟨false, [],
          [("user:2:channels",
            [⟨1, "General", "text-group", false, 0⟩, ⟨9, "X", "dm", true, 0⟩]),
           ("channels:public", [⟨1, "General", "text-group", false, 0⟩])],
          [("user:2:channels", 10000), ("channels:public", 10000)]⟩ 100 2).cache.memoryCache
        (getUserChannelsKey 2) =
      some ((fetchChannelsFromDB
        ⟨[⟨2, none⟩], [⟨1, "General", "text-group", false, 0⟩], [⟨1, 2⟩], [], []⟩ 2).filter
        (fun c => ([⟨1, 2⟩] : List ChannelMember).any
          (fun m => m.channelId == c.chanId && m.userId == 2))) :=
  fetch_rebuilds_on_mismatch_degraded
    ⟨[⟨2, none⟩], [⟨1, "General", "text-group", false, 0⟩], [⟨1, 2⟩], [], []⟩
    ⟨false, [],
      [("user:2:channels",
        [⟨1, "General", "text-group", false, 0⟩, ⟨9, "X", "dm", true, 0⟩]),
       ("channels:public", [⟨1, "General", "text-group", false, 0⟩])],
      [("user:2:channels", 10000), ("channels:public", 10000)]⟩ 100 2
    [⟨1, "General", "text-group", false, 0⟩, ⟨9, "X", "dm", true, 0⟩]
    [⟨1, "General", "text-group", false, 0⟩]
    (by decide) (by decide)
    (by
      intro e he
      rw [show strGet [("user:2:channels", (10000 : Nat)), ("channels:public", 10000)]
          (getUserChannelsKey 2) = some 10000 from by decide] at he
      injection he with h2
      omega)
    (by decide)
    (by
      intro e he
      rw [show strGet [("user:2:channels", (10000 : Nat)), ("channels:public", 10000)]
          "channels:public" = some 10000 from by decide] at he
      injection he with h2
      omega)
    (by decide) (by decide) (by decide)
